import Mathlib

/-!
Verification development for the hogo coalescing framework.

This file gives a shallow embedding of the two components the checked
properties are about:

* `RequestTracker` (src/request-tracker.js): the SingleFlight-style
  request coalescing engine.  JavaScript values that the tracker
  branches on by truthiness are modelled by the inductive `JSVal`; the
  key -> record `Map` is modelled as an insertion-ordered association
  list; a waiter callback is modelled by an identifier together with a
  flag saying whether invoking it throws; invoking a callback is
  recorded in a delivery log (callback id, error argument, result
  argument).  The `setResult` / `setError` closures returned by
  `registerFlight` capture only the flight key and call
  `completeFlight(key, ...)` on the current map, so they are modelled
  as key-indexed operations; the `addWaiter` closures capture the
  record object itself, so they are modelled as functions on
  `FlightData` (the object survives its removal from the map, which
  `completeFlight` reports through the `detached` field).

* `Ship` (src/ship.js): the response object.  The underlying node
  response is modelled as the ordered log of `setHeader`, `writeHead`
  and `end` calls issued to it.

Each operation is translated statement by statement from the source;
timers appear as an explicit timer-fire operation (the scheduled
`setTimeout` action calls `abortFlight(key, Error(...))`), and
`Date.now()` is an explicit `now` argument.
-/

/-- A JavaScript value, as far as the tracker inspects one: the code
branches on truthiness (`if (error)`, `if (existing.error)`), so the
model keeps the standard falsy values distinct.  `err` is an `Error`
object (always truthy), `obj` any other object. -/
inductive JSVal where
  | null
  | undefined
  | bool (b : Bool)
  | num (n : Int)
  | str (s : String)
  | err (message : String)
  | obj (id : Nat)
deriving DecidableEq

/-- JavaScript truthiness. -/
def JSVal.truthy : JSVal → Bool
  | .null => false
  | .undefined => false
  | .bool b => b
  | .num n => n != 0
  | .str s => s != ""
  | .err _ => true
  | .obj _ => true

/-- A waiter callback: an identity, and whether invoking it throws
(the behaviour of the callback body is otherwise opaque to the
tracker). -/
structure Waiter where
  cb : Nat
  throws : Bool
deriving DecidableEq

/-- One invocation of a waiter callback: `callback(error, result)`. -/
structure Delivery where
  cb : Nat
  error : JSVal
  result : JSVal
deriving DecidableEq

/-- The flight record created by `registerFlight`.  `timeoutHandle`
records whether a timer handle was assigned (the source never resets
the field, and `clearTimeout` acts on the external timer, not on the
record). -/
structure FlightData where
  key : String
  startTime : Nat
  waiters : List Waiter
  result : JSVal
  error : JSVal
  completed : Bool
  timeoutHandle : Bool
deriving DecidableEq

/-- The tracker state: the key -> record map (insertion-ordered
association list, as a JS `Map`) and the configured timeout. -/
structure Tracker where
  flights : List (String × FlightData)
  timeoutMs : Nat
deriving DecidableEq

/-- `Map.get`. -/
def mapGet : List (String × FlightData) → String → Option FlightData
  | [], _ => none
  | p :: rest, k => if p.1 = k then some p.2 else mapGet rest k

/-- `Map.set`: replaces in place if the key is present, appends
otherwise. -/
def mapSet : List (String × FlightData) → String → FlightData → List (String × FlightData)
  | [], k, v => [(k, v)]
  | p :: rest, k, v => if p.1 = k then (k, v) :: rest else p :: mapSet rest k v

/-- `Map.delete`. -/
def mapDel : List (String × FlightData) → String → List (String × FlightData)
  | [], _ => []
  | p :: rest, k => if p.1 = k then mapDel rest k else p :: mapDel rest k

/-- `createFlightKey(method, url)`. -/
def createFlightKey (method url : String) : String :=
  method ++ ":" ++ url

/-- `isInFlight(method, url)`. -/
def isInFlight (t : Tracker) (method url : String) : Bool :=
  (mapGet t.flights (createFlightKey method url)).isSome

/-- The record literal built at the start of `registerFlight`; the
timer handle is assigned right after, before the record is inserted. -/
def newFlightData (key : String) (now : Nat) : FlightData :=
  { key := key, startTime := now, waiters := [], result := .null,
    error := .null, completed := false, timeoutHandle := true }

/-- `registerFlight(method, url)`: creates the record, arms the
timer, inserts the record.  Returns the new state and the created
record object (captured by the returned `addWaiter` closure). -/
def registerFlight (t : Tracker) (method url : String) (now : Nat) :
    Tracker × FlightData :=
  let key := createFlightKey method url
  let fd := newFlightData key now
  ({ t with flights := mapSet t.flights key fd }, fd)

/-- `getOrCreateFlight(method, url)`: the first component is the
`isNew` field of the returned object (`Originate` when true, `Wait`
when false). -/
def getOrCreateFlight (t : Tracker) (method url : String) (now : Nat) :
    Bool × Tracker :=
  let key := createFlightKey method url
  match mapGet t.flights key with
  | some existing =>
      if existing.completed = false then (false, t)
      else (true, (registerFlight t method url now).1)
  | none => (true, (registerFlight t method url now).1)

/-- The `waiters.forEach` loop of `completeFlight`: each callback is
invoked with `(error, null)` when `error` is truthy and `(null,
result)` otherwise; a `try`/`catch` around the invocation logs a
throwing callback and moves on.  Returns the invocation log and the
ids of the callbacks whose exception was caught. -/
def runWaiters : List Waiter → JSVal → JSVal → List Delivery × List Nat
  | [], _, _ => ([], [])
  | w :: ws, error, result =>
      let d : Delivery :=
        if error.truthy then { cb := w.cb, error := error, result := .null }
        else { cb := w.cb, error := .null, result := result }
      let rest := runWaiters ws error result
      (d :: rest.1, if w.throws then w.cb :: rest.2 else rest.2)

/-- Everything a `completeFlight` call produces: the new tracker
state, the callback invocations it performed, the callback exceptions
it caught, and the (mutated) record object it removed from the map —
`none` when the key was absent and the call returned early. -/
structure CompleteResult where
  tracker : Tracker
  delivered : List Delivery
  caught : List Nat
  detached : Option FlightData
deriving DecidableEq

/-- `completeFlight(key, error, result)`: early return if the key is
absent; otherwise clear the timer (external effect only), store the
outcome on the record, mark it completed, notify all waiters, delete
the map entry. -/
def completeFlight (t : Tracker) (key : String) (error result : JSVal) :
    CompleteResult :=
  match mapGet t.flights key with
  | none => { tracker := t, delivered := [], caught := [], detached := none }
  | some flightData =>
      let fd := { flightData with error := error, result := result, completed := true }
      let notified := runWaiters flightData.waiters error result
      { tracker := { t with flights := mapDel t.flights key },
        delivered := notified.1, caught := notified.2, detached := some fd }

/-- `abortFlight(key, error)`: completes the flight with the error
and a null result, but only when the key is present and the record is
not yet completed. -/
def abortFlight (t : Tracker) (key : String) (error : JSVal) : CompleteResult :=
  match mapGet t.flights key with
  | some flightData =>
      if flightData.completed = false then completeFlight t key error .null
      else { tracker := t, delivered := [], caught := [], detached := none }
  | none => { tracker := t, delivered := [], caught := [], detached := none }

/-- The `setResult` closure of the handle for `key`:
`completeFlight(key, null, result)`. -/
def setResult (t : Tracker) (key : String) (result : JSVal) : CompleteResult :=
  completeFlight t key .null result

/-- The `setError` closure of the handle for `key`:
`completeFlight(key, error, null)`. -/
def setError (t : Tracker) (key : String) (error : JSVal) : CompleteResult :=
  completeFlight t key error .null

/-- The error the armed timer passes to `abortFlight` when it
fires. -/
def timeoutError : JSVal :=
  .err "Request flight timeout exceeded"

/-- The `addWaiter` closure returned by `registerFlight`, acting on
its captured record object: invoke immediately when the flight has
completed (with the stored error if truthy, the stored result
otherwise), queue while in progress. -/
def addWaiterNew (fd : FlightData) (w : Waiter) : FlightData × List Delivery :=
  if fd.completed then
    if fd.error.truthy then (fd, [{ cb := w.cb, error := fd.error, result := .null }])
    else (fd, [{ cb := w.cb, error := .null, result := fd.result }])
  else ({ fd with waiters := fd.waiters ++ [w] }, [])

/-- The `addWaiter` closure returned by `getOrCreateFlight` for an
existing record, acting on its captured record object: it tests
`existing.error`, not `existing.completed` — invoke with the error
when it is truthy, queue otherwise. -/
def addWaiterExisting (fd : FlightData) (w : Waiter) : FlightData × List Delivery :=
  if fd.error.truthy then (fd, [{ cb := w.cb, error := fd.error, result := .null }])
  else ({ fd with waiters := fd.waiters ++ [w] }, [])

/-- Calling an `addWaiter` closure while its record is still in the
map: every record in the map is pending with a null error (lemma
`liveMap_reach`), and on such a record both closure variants append
the callback to the waiters list of the record, which aliases the map
entry. -/
def addWaiterLive (t : Tracker) (key : String) (w : Waiter) : Tracker :=
  match mapGet t.flights key with
  | none => t
  | some fd =>
      { t with flights := mapSet t.flights key { fd with waiters := fd.waiters ++ [w] } }

/-- One entry of `getStats().flights`. -/
structure FlightStat where
  key : String
  startTime : Nat
  waiters : Nat
  duration : Int
deriving DecidableEq

/-- The value of `getStats()`. -/
structure Stats where
  totalInFlight : Nat
  flights : List FlightStat
deriving DecidableEq

/-- `getStats()` with `Date.now()` passed explicitly. -/
def getStats (t : Tracker) (now : Nat) : Stats :=
  { totalInFlight := t.flights.length,
    flights := t.flights.map (fun p =>
      { key := p.2.key, startTime := p.2.startTime,
        waiters := p.2.waiters.length,
        duration := (now : Int) - (p.2.startTime : Int) }) }

/-- `clear()`: cancels the timers (external effect only) and empties
the map. -/
def clearTracker (t : Tracker) : Tracker :=
  { t with flights := [] }

/-- One completed tracker operation, as in the operation
list: a `joinOrStart` call, an `addWaiter` call on a live record, a
`setResult` or `setError` call on a handle for a key, or the firing
of an armed deadline timer for a key. -/
inductive Op where
  | join (method url : String) (now : Nat)
  | addW (key : String) (w : Waiter)
  | setRes (key : String) (v : JSVal)
  | setErr (key : String) (e : JSVal)
  | fire (key : String)
deriving DecidableEq

/-- The state effect of one completed operation. -/
def applyOp (t : Tracker) : Op → Tracker
  | .join m u now => (getOrCreateFlight t m u now).2
  | .addW k w => addWaiterLive t k w
  | .setRes k v => (setResult t k v).tracker
  | .setErr k e => (setError t k e).tracker
  | .fire k => (abortFlight t k timeoutError).tracker

/-- A freshly constructed tracker (default timeout). -/
def tracker0 : Tracker :=
  { flights := [], timeoutMs := 30000 }

/-- The tracker state reached by a sequence of completed
operations. -/
def reach (ops : List Op) : Tracker :=
  ops.foldl applyOp tracker0

/-- Invariant of reachable states: every record held by the map is
pending and carries a null error. -/
def LiveMap (t : Tracker) : Prop :=
  ∀ p ∈ t.flights, p.2.completed = false ∧ p.2.error = JSVal.null

/-- A sequence of same-key `getOrCreateFlight` calls, one per
timestamp, returning the list of `isNew` decisions and the final
state. -/
def joinSeq : Tracker → String → String → List Nat → List Bool × Tracker
  | t, _, _, [] => ([], t)
  | t, m, u, now :: rest =>
      let r := getOrCreateFlight t m u now
      let later := joinSeq r.2 m u rest
      (r.1 :: later.1, later.2)

/-- One way for a flight to complete: the originator reports a
result, the originator reports an error, or the deadline timer
fires. -/
inductive CompletionOp where
  | success (v : JSVal)
  | failure (e : JSVal)
  | timeout
deriving DecidableEq

/-- The state effect of completing the flight for `k` by the given
path. -/
def applyCompletion (t : Tracker) (k : String) : CompletionOp → Tracker
  | .success v => (setResult t k v).tracker
  | .failure e => (setError t k e).tracker
  | .timeout => (abortFlight t k timeoutError).tracker

/-- Complete, by the chosen path, each key of a list in turn. -/
def completeAll (choice : String → CompletionOp) : Tracker → List String → Tracker
  | t, [] => t
  | t, k :: ks => completeAll choice (applyCompletion t k (choice k)) ks

/-- One call issued to the underlying node response object. -/
inductive ResEvent where
  | setHeader (name value : String)
  | writeHead (status : Int) (headers : List (String × String))
  | endData (payload : String)
deriving DecidableEq

/-- What `_responseData` holds after a send: the data value passed to
`deliver`/`json`/`text`/`html`, or the error object built by
`error`. -/
inductive RespData where
  | val (v : JSVal)
  | errObj (message : String) (status : Int) (timestamp : String)
deriving DecidableEq

/-- JavaScript `String(v)` on the modelled values. -/
def jsToString : JSVal → String
  | .null => "null"
  | .undefined => "undefined"
  | .bool true => "true"
  | .bool false => "false"
  | .num n => toString n
  | .str s => s
  | .err m => "Error: " ++ m
  | .obj _ => "[object Object]"

/-- `JSON.stringify(v)` on the modelled values.  Serialization
details (string escaping, object bodies) are abstracted — no checked
property inspects payload bytes; plain objects and `Error` objects
serialize to an empty object body. -/
def jsonStringify : JSVal → String
  | .null => "null"
  | .undefined => "undefined"
  | .bool true => "true"
  | .bool false => "false"
  | .num n => toString n
  | .str s => "\"" ++ s ++ "\""
  | .err _ => "\x7b\x7d"
  | .obj _ => "\x7b\x7d"

/-- The `Ship` response object: the log of calls made to the wrapped
node response, plus the fields of the class. -/
structure Ship where
  res : List ResEvent
  headersSent : Bool
  statusCode : Int
  responseData : Option RespData
  contentType : Option String
deriving DecidableEq

/-- A `Ship` as built by the constructor. -/
def newShip : Ship :=
  { res := [], headersSent := false, statusCode := 200,
    responseData := none, contentType := none }

/-- `status(code)`. -/
def Ship.status (s : Ship) (code : Int) : Ship :=
  if s.headersSent then s else { s with statusCode := code }

/-- `header(name, value)`. -/
def Ship.header (s : Ship) (name value : String) : Ship :=
  if s.headersSent then s
  else { s with res := s.res ++ [ResEvent.setHeader name value] }

/-- `deliver(data, contentType)`.  A string is sent as is, any other
value through `String(data)` (`Buffer` payloads are not modelled;
they too are sent byte for byte). -/
def Ship.deliver (s : Ship) (data : JSVal) (contentType : String) : Ship :=
  if s.headersSent then s
  else
    let payload :=
      match data with
      | .str stringData => stringData
      | d => jsToString d
    { s with
      responseData := some (RespData.val data),
      contentType := some contentType,
      res := s.res ++
        [ResEvent.writeHead s.statusCode [("Content-Type", contentType)],
         ResEvent.endData payload],
      headersSent := true }

/-- `json(data)`. -/
def Ship.json (s : Ship) (data : JSVal) : Ship :=
  if s.headersSent then s
  else
    let ct := "application/json; charset=utf-8"
    let payload := jsonStringify data
    { s with
      responseData := some (RespData.val data),
      contentType := some ct,
      res := s.res ++
        [ResEvent.writeHead s.statusCode
          [("Content-Type", ct), ("Content-Length", toString payload.utf8ByteSize)],
         ResEvent.endData payload],
      headersSent := true }

/-- `text(data)`. -/
def Ship.text (s : Ship) (data : JSVal) : Ship :=
  if s.headersSent then s
  else
    let ct := "text/plain; charset=utf-8"
    let payload := jsToString data
    { s with
      responseData := some (RespData.val data),
      contentType := some ct,
      res := s.res ++
        [ResEvent.writeHead s.statusCode
          [("Content-Type", ct), ("Content-Length", toString payload.utf8ByteSize)],
         ResEvent.endData payload],
      headersSent := true }

/-- `html(data)`. -/
def Ship.html (s : Ship) (data : JSVal) : Ship :=
  if s.headersSent then s
  else
    let ct := "text/html; charset=utf-8"
    let payload := jsToString data
    { s with
      responseData := some (RespData.val data),
      contentType := some ct,
      res := s.res ++
        [ResEvent.writeHead s.statusCode
          [("Content-Type", ct), ("Content-Length", toString payload.utf8ByteSize)],
         ResEvent.endData payload],
      headersSent := true }

/-- `error(message, code)`; the timestamp `new Date().toISOString()`
is an explicit argument. -/
def Ship.error (s : Ship) (message : String) (code : Int) (timestamp : String) : Ship :=
  if s.headersSent then s
  else
    let ct := "application/json; charset=utf-8"
    let payload :=
      "\x7b\"error\":\"" ++ message ++ "\",\"status\":" ++ toString code ++
        ",\"timestamp\":\"" ++ timestamp ++ "\"\x7d"
    { s with
      responseData := some (RespData.errObj message code timestamp),
      contentType := some ct,
      res := s.res ++
        [ResEvent.writeHead code
          [("Content-Type", ct), ("Content-Length", toString payload.utf8ByteSize)],
         ResEvent.endData payload],
      headersSent := true }

/-- `isHeadersSent()`. -/
def Ship.isHeadersSent (s : Ship) : Bool :=
  s.headersSent

/-- The value of `getResponseContext()`. -/
structure ResponseContext where
  data : Option RespData
  contentType : Option String
  statusCode : Int
deriving DecidableEq

/-- `getResponseContext()`. -/
def Ship.getResponseContext (s : Ship) : ResponseContext :=
  { data := s.responseData, contentType := s.contentType,
    statusCode := s.statusCode }

theorem mapGet_mapDel_self (l : List (String × FlightData)) (k : String) :
    mapGet (mapDel l k) k = none := by
  induction l with
  | nil => rfl
  | cons p rest ih =>
      by_cases h : p.1 = k
      · simp [mapDel, h, ih]
      · simp [mapDel, mapGet, h, ih]

theorem mem_mapDel (l : List (String × FlightData)) (k : String)
    (p : String × FlightData) (hp : p ∈ mapDel l k) : p ∈ l ∧ p.1 ≠ k := by
  induction l with
  | nil => cases hp
  | cons q rest ih =>
      by_cases h : q.1 = k
      · rw [mapDel, if_pos h] at hp
        rcases ih hp with ⟨h1, h2⟩
        exact ⟨List.mem_cons_of_mem _ h1, h2⟩
      · rw [mapDel, if_neg h] at hp
        rcases List.mem_cons.mp hp with rfl | hp
        · exact ⟨List.mem_cons_self _ _, h⟩
        · rcases ih hp with ⟨h1, h2⟩
          exact ⟨List.mem_cons_of_mem _ h1, h2⟩

theorem mapDel_absent (l : List (String × FlightData)) (k : String)
    (h : mapGet l k = none) : mapDel l k = l := by
  induction l with
  | nil => rfl
  | cons q rest ih =>
      by_cases hq : q.1 = k
      · rw [mapGet, if_pos hq] at h
        cases h
      · rw [mapGet, if_neg hq] at h
        rw [mapDel, if_neg hq, ih h]

theorem mapGet_mapSet_self (l : List (String × FlightData)) (k : String) (v : FlightData) :
    mapGet (mapSet l k v) k = some v := by
  induction l with
  | nil => simp [mapSet, mapGet]
  | cons q rest ih =>
      by_cases hq : q.1 = k
      · simp [mapSet, hq, mapGet]
      · simp [mapSet, mapGet, hq, ih]

theorem mem_mapSet (l : List (String × FlightData)) (k : String) (v : FlightData)
    (p : String × FlightData) (hp : p ∈ mapSet l k v) : p = (k, v) ∨ p ∈ l := by
  induction l with
  | nil =>
      rw [mapSet] at hp
      rcases List.mem_cons.mp hp with rfl | hp
      · exact Or.inl rfl
      · cases hp
  | cons q rest ih =>
      by_cases hq : q.1 = k
      · rw [mapSet, if_pos hq] at hp
        rcases List.mem_cons.mp hp with rfl | hp
        · exact Or.inl rfl
        · exact Or.inr (List.mem_cons_of_mem _ hp)
      · rw [mapSet, if_neg hq] at hp
        rcases List.mem_cons.mp hp with rfl | hp
        · exact Or.inr (List.mem_cons_self _ _)
        · rcases ih hp with h1 | h1
          · exact Or.inl h1
          · exact Or.inr (List.mem_cons_of_mem _ h1)

theorem mapGet_mem (l : List (String × FlightData)) (k : String) (v : FlightData)
    (h : mapGet l k = some v) : (k, v) ∈ l := by
  induction l with
  | nil => cases h
  | cons q rest ih =>
      rcases q with ⟨qk, qv⟩
      by_cases hq : qk = k
      · subst hq
        rw [mapGet, if_pos rfl] at h
        have hv : qv = v := by simpa using h
        subst hv
        exact List.mem_cons_self _ _
      · rw [mapGet, if_neg hq] at h
        exact List.mem_cons_of_mem _ (ih h)

theorem runWaiters_delivered (ws : List Waiter) (e r : JSVal) :
    (runWaiters ws e r).1 = ws.map (fun w =>
      if e.truthy then { cb := w.cb, error := e, result := JSVal.null }
      else { cb := w.cb, error := JSVal.null, result := r }) := by
  induction ws with
  | nil => rfl
  | cons w ws ih => by_cases he : e.truthy <;> simp [runWaiters, he, ih]

theorem runWaiters_caught_mem (ws : List Waiter) (e r : JSVal) (w : Waiter)
    (hw : w ∈ ws) (ht : w.throws = true) : w.cb ∈ (runWaiters ws e r).2 := by
  induction ws with
  | nil => cases hw
  | cons x ws ih =>
      rcases List.mem_cons.mp hw with rfl | hw
      · simp [runWaiters, ht]
      · by_cases hx : x.throws <;> simp [runWaiters, hx, ih hw]

theorem completeFlight_mapGet_self (t : Tracker) (k : String) (e r : JSVal) :
    mapGet (completeFlight t k e r).tracker.flights k = none := by
  cases h : mapGet t.flights k with
  | none => simp [completeFlight, h]
  | some fd => simp [completeFlight, h, mapGet_mapDel_self]

theorem completeFlight_flights (t : Tracker) (k : String) (e r : JSVal) :
    (completeFlight t k e r).tracker.flights = mapDel t.flights k := by
  cases h : mapGet t.flights k with
  | none => simp [completeFlight, h, mapDel_absent t.flights k h]
  | some fd => simp [completeFlight, h]

theorem abortFlight_flights (t : Tracker) (k : String) (e : JSVal)
    (h : ∀ p ∈ t.flights, p.2.completed = false) :
    (abortFlight t k e).tracker.flights = mapDel t.flights k := by
  cases hg : mapGet t.flights k with
  | none => simp [abortFlight, hg, mapDel_absent t.flights k hg]
  | some fd =>
      have hc : fd.completed = false := (h (k, fd) (mapGet_mem _ _ _ hg))
      simp [abortFlight, hg, hc, completeFlight_flights]

theorem getOrCreateFlight_absent (t : Tracker) (m u : String) (now : Nat)
    (h : mapGet t.flights (createFlightKey m u) = none) :
    getOrCreateFlight t m u now =
      (true, { t with flights := mapSet t.flights (createFlightKey m u)
                        (newFlightData (createFlightKey m u) now) }) := by
  simp [getOrCreateFlight, h, registerFlight]

theorem getOrCreateFlight_pending (t : Tracker) (m u : String) (now : Nat)
    (fd : FlightData) (h : mapGet t.flights (createFlightKey m u) = some fd)
    (hc : fd.completed = false) :
    getOrCreateFlight t m u now = (false, t) := by
  simp [getOrCreateFlight, h, hc]

theorem joinSeq_pending (ts : List Nat) (t : Tracker) (m u : String) (fd : FlightData)
    (h : mapGet t.flights (createFlightKey m u) = some fd)
    (hc : fd.completed = false) :
    joinSeq t m u ts = (List.replicate ts.length false, t) := by
  induction ts with
  | nil => rfl
  | cons n rest ih =>
      simp [joinSeq, getOrCreateFlight_pending t m u n fd h hc, ih, List.replicate_succ]

theorem liveMap_register (t : Tracker) (m u : String) (now : Nat) (h : LiveMap t) :
    LiveMap (registerFlight t m u now).1 := by
  intro p hp
  have hp' : p ∈ mapSet t.flights (createFlightKey m u)
      (newFlightData (createFlightKey m u) now) := by
    simpa [registerFlight] using hp
  rcases mem_mapSet _ _ _ _ hp' with h1 | h1
  · subst h1
    exact ⟨rfl, rfl⟩
  · exact h p h1

theorem liveMap_getOrCreate (t : Tracker) (m u : String) (now : Nat) (h : LiveMap t) :
    LiveMap (getOrCreateFlight t m u now).2 := by
  cases hg : mapGet t.flights (createFlightKey m u) with
  | none =>
      have hr := liveMap_register t m u now h
      simpa [getOrCreateFlight, hg] using hr
  | some fd =>
      by_cases hc : fd.completed = false
      · simpa [getOrCreateFlight, hg, hc] using h
      · have hr := liveMap_register t m u now h
        simpa [getOrCreateFlight, hg, hc] using hr

theorem liveMap_complete (t : Tracker) (k : String) (e r : JSVal) (h : LiveMap t) :
    LiveMap (completeFlight t k e r).tracker := by
  intro p hp
  rw [completeFlight_flights] at hp
  exact h p (mem_mapDel _ _ _ hp).1

theorem liveMap_abort (t : Tracker) (k : String) (e : JSVal) (h : LiveMap t) :
    LiveMap (abortFlight t k e).tracker := by
  cases hg : mapGet t.flights k with
  | none => simpa [abortFlight, hg] using h
  | some fd =>
      by_cases hc : fd.completed = false
      · simpa [abortFlight, hg, hc] using liveMap_complete t k e JSVal.null h
      · simpa [abortFlight, hg, hc] using h

theorem liveMap_addWaiterLive (t : Tracker) (k : String) (w : Waiter) (h : LiveMap t) :
    LiveMap (addWaiterLive t k w) := by
  cases hg : mapGet t.flights k with
  | none => simpa [addWaiterLive, hg] using h
  | some fd =>
      intro p hp
      have hp' : p ∈ mapSet t.flights k { fd with waiters := fd.waiters ++ [w] } := by
        simpa [addWaiterLive, hg] using hp
      rcases mem_mapSet _ _ _ _ hp' with h1 | h1
      · subst h1
        have hfd := h (k, fd) (mapGet_mem _ _ _ hg)
        simpa using hfd
      · exact h p h1

theorem liveMap_applyOp (t : Tracker) (op : Op) (h : LiveMap t) :
    LiveMap (applyOp t op) := by
  cases op with
  | join m u now => exact liveMap_getOrCreate t m u now h
  | addW k w => exact liveMap_addWaiterLive t k w h
  | setRes k v => exact liveMap_complete t k JSVal.null v h
  | setErr k e => exact liveMap_complete t k e JSVal.null h
  | fire k => exact liveMap_abort t k timeoutError h

theorem liveMap_reach (ops : List Op) : LiveMap (reach ops) := by
  have h0 : LiveMap tracker0 := by
    intro p hp
    simp [tracker0] at hp
  suffices hgen : ∀ (l : List Op) (t : Tracker), LiveMap t → LiveMap (l.foldl applyOp t) by
    exact hgen ops tracker0 h0
  intro l
  induction l with
  | nil => intro t ht; simpa using ht
  | cons op rest ih =>
      intro t ht
      exact ih _ (liveMap_applyOp t op ht)

theorem completeAll_empty (choice : String → CompletionOp) :
    ∀ (ks : List String) (t : Tracker),
      (∀ p ∈ t.flights, p.2.completed = false) →
      (∀ p ∈ t.flights, p.1 ∈ ks) →
      (completeAll choice t ks).flights = [] := by
  intro ks
  induction ks with
  | nil =>
      intro t _ hcov
      cases hf : t.flights with
      | nil => simp [completeAll, hf]
      | cons p rest =>
          have := hcov p (by rw [hf]; exact List.mem_cons_self _ _)
          cases this
  | cons k ks ih =>
      intro t hpend hcov
      have hflights : (applyCompletion t k (choice k)).flights = mapDel t.flights k := by
        cases hchoice : choice k with
        | success v => exact completeFlight_flights t k JSVal.null v
        | failure e => exact completeFlight_flights t k e JSVal.null
        | timeout => exact abortFlight_flights t k timeoutError hpend
      rw [completeAll]
      refine ih (applyCompletion t k (choice k)) ?_ ?_
      · intro p hp
        rw [hflights] at hp
        exact hpend p (mem_mapDel _ _ _ hp).1
      · intro p hp
        rw [hflights] at hp
        rcases mem_mapDel _ _ _ hp with ⟨h1, h2⟩
        rcases List.mem_cons.mp (hcov p h1) with h3 | h3
        · exact absurd h3 h2
        · exact h3

/-- C1: when no record exists for a key, `getOrCreateFlight` returns
`isNew = true` (Originate); every further same-key call made while
that record is pending returns `isNew = false` (Wait), so a sequence
of N same-key calls decides `Originate` once and `Wait` N-1 times;
and once the record is completed (key removed from the map) a further
call returns `Originate` again. -/
theorem claim_c1 (t : Tracker) (m u : String) (n0 : Nat) (rest : List Nat)
    (h : mapGet t.flights (createFlightKey m u) = none) :
    (joinSeq t m u (n0 :: rest)).1 = true :: List.replicate rest.length false ∧
    ∀ e r n2,
      (getOrCreateFlight
        (completeFlight (joinSeq t m u (n0 :: rest)).2 (createFlightKey m u) e r).tracker
        m u n2).1 = true := by
  have h1 := getOrCreateFlight_absent t m u n0 h
  have hfd : mapGet (getOrCreateFlight t m u n0).2.flights (createFlightKey m u)
      = some (newFlightData (createFlightKey m u) n0) := by
    rw [h1]
    exact mapGet_mapSet_self _ _ _
  have hrest := joinSeq_pending rest (getOrCreateFlight t m u n0).2 m u
    (newFlightData (createFlightKey m u) n0) hfd rfl
  constructor
  · have hstep : (joinSeq t m u (n0 :: rest)).1
        = (getOrCreateFlight t m u n0).1
            :: (joinSeq (getOrCreateFlight t m u n0).2 m u rest).1 := rfl
    rw [hstep, hrest, h1]
  · intro e r n2
    have hstep2 : (joinSeq t m u (n0 :: rest)).2
        = (joinSeq (getOrCreateFlight t m u n0).2 m u rest).2 := rfl
    have hfinal : (joinSeq t m u (n0 :: rest)).2 = (getOrCreateFlight t m u n0).2 := by
      rw [hstep2, hrest]
    rw [hfinal]
    have hnone := completeFlight_mapGet_self ((getOrCreateFlight t m u n0).2)
      (createFlightKey m u) e r
    rw [getOrCreateFlight_absent _ m u n2 hnone]

theorem claim_c1_witness :
    mapGet tracker0.flights (createFlightKey "GET" "/w1") = none ∧
    (joinSeq tracker0 "GET" "/w1" (0 :: [1, 2])).1 = true :: List.replicate 2 false ∧
    (getOrCreateFlight
      (completeFlight (joinSeq tracker0 "GET" "/w1" (0 :: [1, 2])).2
        (createFlightKey "GET" "/w1") JSVal.null (JSVal.num 5)).tracker
      "GET" "/w1" 9).1 = true :=
  ⟨by decide, (claim_c1 tracker0 "GET" "/w1" 0 [1, 2] (by decide)).1,
   (claim_c1 tracker0 "GET" "/w1" 0 [1, 2] (by decide)).2 JSVal.null (JSVal.num 5) 9⟩

/-- C2: completing a pending flight through `setResult` invokes every
waiter registered on the record exactly once, in registration order,
with a null error and the success value, and removes the record from
the map. -/
theorem claim_c2 (t : Tracker) (key : String) (fd : FlightData) (v : JSVal)
    (h : mapGet t.flights key = some fd) :
    (setResult t key v).delivered =
      fd.waiters.map (fun w => { cb := w.cb, error := JSVal.null, result := v }) ∧
    mapGet (setResult t key v).tracker.flights key = none := by
  constructor
  · show (completeFlight t key JSVal.null v).delivered = _
    simp [completeFlight, h, runWaiters_delivered, JSVal.truthy]
  · exact completeFlight_mapGet_self t key JSVal.null v

def exT2 : Tracker :=
  reach [Op.join "GET" "/w2" 0, Op.addW "GET:/w2" { cb := 1, throws := false },
         Op.addW "GET:/w2" { cb := 2, throws := false }]

def exFd2 : FlightData :=
  { key := "GET:/w2", startTime := 0,
    waiters := [{ cb := 1, throws := false }, { cb := 2, throws := false }],
    result := JSVal.null, error := JSVal.null, completed := false, timeoutHandle := true }

theorem claim_c2_witness :
    mapGet exT2.flights "GET:/w2" = some exFd2 ∧
    ((setResult exT2 "GET:/w2" (JSVal.num 7)).delivered =
      exFd2.waiters.map (fun w => { cb := w.cb, error := JSVal.null, result := JSVal.num 7 }) ∧
     mapGet (setResult exT2 "GET:/w2" (JSVal.num 7)).tracker.flights "GET:/w2" = none) :=
  ⟨by decide, claim_c2 exT2 "GET:/w2" exFd2 (JSVal.num 7) (by decide)⟩

def c3t1 : Tracker := reach [Op.join "GET" "/w3" 0]

def c3t2 : Tracker := applyOp c3t1 (Op.fire "GET:/w3")

def c3t3 : Tracker := applyOp c3t2 (Op.join "GET" "/w3" 5)

def c3t4 : Tracker := addWaiterLive c3t3 "GET:/w3" { cb := 7, throws := false }

def c3late : CompleteResult := setResult c3t4 "GET:/w3" (JSVal.num 42)

/-- C3 counterexample: the originator of the first flight for
`GET:/w3` reports a result after its flight has already completed via
the timeout (the map no longer holds the key, `c3t2`), and after a
fresh flight with one waiter has been started for the same key.  The
late `setResult` is not a no-op: the handle addresses its flight by
key, so it completes the fresh flight, delivering a notification to
its waiter and removing it from the map. -/
theorem claim_c3_counterexample :
    mapGet c3t2.flights "GET:/w3" = none ∧
    isInFlight c3t4 "GET" "/w3" = true ∧
    c3late.delivered = [{ cb := 7, error := JSVal.null, result := JSVal.num 42 }] ∧
    c3late.tracker.flights ≠ c3t4.flights := by decide

/-- C3 amended: a second `setResult` or `setError` on a handle whose
flight has completed raises no error, and when the map holds no
record for the handle key it is a complete no-op: nothing is
delivered, nothing is caught, and the map is unchanged.  (If a new
flight has since been started for the same key, the stale call
instead completes that new flight, because handles address flights by
key.) -/
theorem claim_c3_amended (t : Tracker) (key : String) (e r : JSVal)
    (h : mapGet t.flights key = none) :
    setResult t key r = { tracker := t, delivered := [], caught := [], detached := none } ∧
    setError t key e = { tracker := t, delivered := [], caught := [], detached := none } := by
  constructor
  · simp [setResult, completeFlight, h]
  · simp [setError, completeFlight, h]

theorem claim_c3_witness :
    mapGet tracker0.flights "GET:/w3b" = none ∧
    (setResult tracker0 "GET:/w3b" (JSVal.num 1) =
       { tracker := tracker0, delivered := [], caught := [], detached := none } ∧
     setError tracker0 "GET:/w3b" (JSVal.err "boom") =
       { tracker := tracker0, delivered := [], caught := [], detached := none }) :=
  ⟨by decide, claim_c3_amended tracker0 "GET:/w3b" (JSVal.err "boom") (JSVal.num 1) (by decide)⟩

/-- C4: on a pending record, `abortFlight key e` (the timer path,
with `e` an Error object) is exactly `completeFlight key e null`,
i.e. the effect of `setError e`: every registered waiter is notified
with the error and a null result, the detached record is marked
completed, and the key is removed from the map. -/
theorem claim_c4 (t : Tracker) (key msg : String) (fd : FlightData)
    (h1 : mapGet t.flights key = some fd) (h2 : fd.completed = false) :
    abortFlight t key (JSVal.err msg) = completeFlight t key (JSVal.err msg) JSVal.null ∧
    (abortFlight t key (JSVal.err msg)).delivered =
      fd.waiters.map (fun w => { cb := w.cb, error := JSVal.err msg, result := JSVal.null }) ∧
    mapGet (abortFlight t key (JSVal.err msg)).tracker.flights key = none ∧
    (abortFlight t key (JSVal.err msg)).detached =
      some { fd with error := JSVal.err msg, result := JSVal.null, completed := true } := by
  have habort : abortFlight t key (JSVal.err msg)
      = completeFlight t key (JSVal.err msg) JSVal.null := by
    simp [abortFlight, h1, h2]
  refine ⟨habort, ?_, ?_, ?_⟩
  · rw [habort]
    simp [completeFlight, h1, runWaiters_delivered, JSVal.truthy]
  · rw [habort]
    exact completeFlight_mapGet_self t key (JSVal.err msg) JSVal.null
  · rw [habort]
    simp [completeFlight, h1]

def exT4 : Tracker :=
  reach [Op.join "POST" "/w4" 3, Op.addW "POST:/w4" { cb := 4, throws := false }]

def exFd4 : FlightData :=
  { key := "POST:/w4", startTime := 3, waiters := [{ cb := 4, throws := false }],
    result := JSVal.null, error := JSVal.null, completed := false, timeoutHandle := true }

theorem claim_c4_witness :
    (mapGet exT4.flights "POST:/w4" = some exFd4 ∧ exFd4.completed = false) ∧
    abortFlight exT4 "POST:/w4" (JSVal.err "Request flight timeout exceeded") =
      completeFlight exT4 "POST:/w4" (JSVal.err "Request flight timeout exceeded") JSVal.null :=
  ⟨⟨by decide, by decide⟩,
   (claim_c4 exT4 "POST:/w4" "Request flight timeout exceeded" exFd4
     (by decide) (by decide)).1⟩

/-- C5: in every state reachable by completed `getOrCreateFlight`,
`addWaiter`, `setResult`, `setError` and timer-fire operations, every
record held by the map is still pending (`completed = false`); hence
`getOrCreateFlight` never meets a completed record, and its decision
is `Originate` exactly when the key is absent, `Wait` exactly when a
(pending) record is present. -/
theorem claim_c5 (ops : List Op) (k : String) (fd : FlightData)
    (h : mapGet (reach ops).flights k = some fd) :
    fd.completed = false ∧
    ∀ m u now, ((getOrCreateFlight (reach ops) m u now).1 = true ↔
      mapGet (reach ops).flights (createFlightKey m u) = none) := by
  have hlive := liveMap_reach ops
  constructor
  · exact (hlive (k, fd) (mapGet_mem _ _ _ h)).1
  · intro m u now
    cases hg : mapGet (reach ops).flights (createFlightKey m u) with
    | none => simp [getOrCreateFlight_absent _ m u now hg]
    | some fd2 =>
        have hc := (hlive (createFlightKey m u, fd2) (mapGet_mem _ _ _ hg)).1
        simp [getOrCreateFlight_pending _ m u now fd2 hg hc]

def c5ops : List Op :=
  [Op.join "GET" "/w5" 0, Op.fire "GET:/w5x", Op.setRes "GET:/w5y" (JSVal.num 1)]

theorem claim_c5_witness :
    mapGet (reach c5ops).flights "GET:/w5" = some (newFlightData "GET:/w5" 0) ∧
    (newFlightData "GET:/w5" 0).completed = false :=
  ⟨by decide, (claim_c5 c5ops "GET:/w5" (newFlightData "GET:/w5" 0) (by decide)).1⟩

/-- C6: each completion path (success, failure, timeout) removes the
completed key from the map; completing every key currently in the
map, each by an arbitrarily chosen path, leaves `getStats` reporting
zero records in flight. -/
theorem claim_c6 (t : Tracker) (h : ∀ p ∈ t.flights, p.2.completed = false) :
    (∀ key c, mapGet (applyCompletion t key c).flights key = none) ∧
    ∀ (choice : String → CompletionOp) (now : Nat),
      (getStats (completeAll choice t (t.flights.map Prod.fst)) now).totalInFlight = 0 := by
  constructor
  · intro key c
    cases c with
    | success v => exact completeFlight_mapGet_self t key JSVal.null v
    | failure e => exact completeFlight_mapGet_self t key e JSVal.null
    | timeout =>
        have hf : (applyCompletion t key CompletionOp.timeout).flights
            = mapDel t.flights key := abortFlight_flights t key timeoutError h
        rw [hf]
        exact mapGet_mapDel_self _ _
  · intro choice now
    have hempty : (completeAll choice t (t.flights.map Prod.fst)).flights = [] := by
      refine completeAll_empty choice (t.flights.map Prod.fst) t h ?_
      intro p hp
      exact List.mem_map_of_mem Prod.fst hp
    simp [getStats, hempty]

def exT6 : Tracker :=
  reach [Op.join "GET" "/w6a" 0, Op.join "GET" "/w6b" 1,
         Op.addW "GET:/w6a" { cb := 11, throws := false }]

theorem claim_c6_witness :
    (∀ p ∈ exT6.flights, p.2.completed = false) ∧
    (getStats (completeAll (fun _ => CompletionOp.timeout) exT6
      (exT6.flights.map Prod.fst)) 9).totalInFlight = 0 :=
  ⟨by decide, (claim_c6 exT6 (by decide)).2 (fun _ => CompletionOp.timeout) 9⟩

def c7t : Tracker := reach [Op.join "GET" "/w7" 0, Op.join "GET" "/w7" 1]

def c7res : CompleteResult := setResult c7t "GET:/w7" (JSVal.num 1)

def c7fd : FlightData :=
  { key := "GET:/w7", startTime := 0, waiters := [], result := JSVal.num 1,
    error := JSVal.null, completed := true, timeoutHandle := true }

/-- C7 counterexample: a second caller joined the flight for
`GET:/w7` (obtaining the `getOrCreateFlight` variant of `addWaiter`
over the record), the flight then completed successfully, leaving the
detached record `c7fd` with `completed = true`, a stored result and a
null error.  Calling that `addWaiter` now queues the callback into
the waiters list of the defunct record and invokes nothing — the
claim says a post-completion `addWaiter` is never queued and is
invoked synchronously with the stored result. -/
theorem claim_c7_counterexample :
    c7res.detached = some c7fd ∧
    c7fd.completed = true ∧
    addWaiterExisting c7fd { cb := 9, throws := false } =
      ({ c7fd with waiters := [{ cb := 9, throws := false }] }, []) := by decide

/-- C7 amended: after completion, the `registerFlight` variant of
`addWaiter` behaves as claimed — nothing is queued and the callback
is invoked synchronously, with the stored error when it is truthy and
with the stored result otherwise.  The `getOrCreateFlight` variant,
however, tests only the stored error: it invokes the callback
synchronously when a truthy error is stored, and otherwise (in
particular after every successful completion) appends the callback to
the waiters list of the detached record, never to be invoked. -/
theorem claim_c7_amended (fd : FlightData) (w : Waiter) (h : fd.completed = true) :
    ((addWaiterNew fd w).1 = fd ∧
     (addWaiterNew fd w).2 =
       [if fd.error.truthy then { cb := w.cb, error := fd.error, result := JSVal.null }
        else { cb := w.cb, error := JSVal.null, result := fd.result }]) ∧
    (fd.error.truthy = true →
      addWaiterExisting fd w = (fd, [{ cb := w.cb, error := fd.error, result := JSVal.null }])) ∧
    (fd.error.truthy = false →
      (addWaiterExisting fd w).1.waiters = fd.waiters ++ [w] ∧
      (addWaiterExisting fd w).2 = []) := by
  refine ⟨?_, ?_, ?_⟩
  · by_cases he : fd.error.truthy <;> simp [addWaiterNew, h, he]
  · intro he
    simp [addWaiterExisting, he]
  · intro he
    simp [addWaiterExisting, he]

theorem claim_c7_witness :
    c7fd.completed = true ∧
    ((addWaiterExisting c7fd { cb := 9, throws := true }).1.waiters =
        c7fd.waiters ++ [{ cb := 9, throws := true }] ∧
     (addWaiterExisting c7fd { cb := 9, throws := true }).2 = []) :=
  ⟨by decide,
   (claim_c7_amended c7fd { cb := 9, throws := true } (by decide)).2.2 (by decide)⟩

def c8t : Tracker :=
  reach [Op.join "GET" "/w8" 0, Op.addW "GET:/w8" { cb := 3, throws := false }]

def c8res : CompleteResult := setError c8t "GET:/w8" (JSVal.str "")

/-- C8 counterexample: the originator reports the failure value `""`
(a falsy JavaScript string).  The fan-out branches on the truthiness
of the stored error, so the registered waiter is invoked with a null
error and a null result — a success-shaped notification — and never
receives the reported error value. -/
theorem claim_c8_counterexample :
    c8res.delivered = [{ cb := 3, error := JSVal.null, result := JSVal.null }] ∧
    ¬ c8res.delivered = [{ cb := 3, error := JSVal.str "", result := JSVal.null }] := by
  decide

/-- C8 amended: when the originator reports a truthy failure value
`e` on a pending flight, every registered waiter is invoked with
exactly that value and a null result, and no waiter of the flight
receives a success payload.  (A falsy error value is instead
delivered as a success notification with a null payload.) -/
theorem claim_c8_amended (t : Tracker) (key : String) (fd : FlightData) (e : JSVal)
    (h1 : mapGet t.flights key = some fd) (h2 : e.truthy = true) :
    (setError t key e).delivered =
      fd.waiters.map (fun w => { cb := w.cb, error := e, result := JSVal.null }) ∧
    ∀ d ∈ (setError t key e).delivered, d.error = e ∧ d.result = JSVal.null := by
  have hdel : (setError t key e).delivered
      = fd.waiters.map (fun w => { cb := w.cb, error := e, result := JSVal.null }) := by
    show (completeFlight t key e JSVal.null).delivered = _
    simp [completeFlight, h1, runWaiters_delivered, h2]
  refine ⟨hdel, ?_⟩
  intro d hd
  rw [hdel] at hd
  rcases List.mem_map.mp hd with ⟨w, _, rfl⟩
  exact ⟨rfl, rfl⟩

def c8wT : Tracker :=
  reach [Op.join "GET" "/w8b" 0, Op.addW "GET:/w8b" { cb := 5, throws := false }]

def c8wFd : FlightData :=
  { key := "GET:/w8b", startTime := 0, waiters := [{ cb := 5, throws := false }],
    result := JSVal.null, error := JSVal.null, completed := false, timeoutHandle := true }

theorem claim_c8_witness :
    (mapGet c8wT.flights "GET:/w8b" = some c8wFd ∧ (JSVal.str "boom").truthy = true) ∧
    (setError c8wT "GET:/w8b" (JSVal.str "boom")).delivered =
      c8wFd.waiters.map (fun w =>
        { cb := w.cb, error := JSVal.str "boom", result := JSVal.null }) :=
  ⟨⟨by decide, by decide⟩,
   (claim_c8_amended c8wT "GET:/w8b" c8wFd (JSVal.str "boom") (by decide) (by decide)).1⟩

/-- C9: a waiter callback that throws during the fan-out of
`completeFlight` is caught: every registered waiter — including every
one after the throwing one — is still invoked with the same outcome,
the thrown exception is only logged, and the record is still removed
from the map. -/
theorem claim_c9 (t : Tracker) (key : String) (fd : FlightData) (e r : JSVal)
    (pre post : List Waiter) (wt : Waiter)
    (h1 : mapGet t.flights key = some fd)
    (h2 : fd.waiters = pre ++ wt :: post)
    (h3 : wt.throws = true) :
    (completeFlight t key e r).delivered =
      fd.waiters.map (fun w =>
        if e.truthy then { cb := w.cb, error := e, result := JSVal.null }
        else { cb := w.cb, error := JSVal.null, result := r }) ∧
    wt.cb ∈ (completeFlight t key e r).caught ∧
    mapGet (completeFlight t key e r).tracker.flights key = none := by
  refine ⟨?_, ?_, completeFlight_mapGet_self t key e r⟩
  · simp [completeFlight, h1, runWaiters_delivered]
  · have hmem : wt ∈ fd.waiters := by
      rw [h2]
      exact List.mem_append_right _ (List.mem_cons_self _ _)
    have hc : (completeFlight t key e r).caught = (runWaiters fd.waiters e r).2 := by
      simp [completeFlight, h1]
    rw [hc]
    exact runWaiters_caught_mem fd.waiters e r wt hmem h3

def c9t : Tracker :=
  reach [Op.join "GET" "/w9" 0,
         Op.addW "GET:/w9" { cb := 1, throws := false },
         Op.addW "GET:/w9" { cb := 2, throws := true },
         Op.addW "GET:/w9" { cb := 3, throws := false }]

def c9fd : FlightData :=
  { key := "GET:/w9", startTime := 0,
    waiters := [{ cb := 1, throws := false }, { cb := 2, throws := true },
                { cb := 3, throws := false }],
    result := JSVal.null, error := JSVal.null, completed := false, timeoutHandle := true }

theorem claim_c9_witness :
    (mapGet c9t.flights "GET:/w9" = some c9fd ∧
     c9fd.waiters = [{ cb := 1, throws := false }]
       ++ { cb := 2, throws := true } :: [{ cb := 3, throws := false }] ∧
     ({ cb := 2, throws := true } : Waiter).throws = true) ∧
    ((completeFlight c9t "GET:/w9" (JSVal.err "boom") JSVal.null).delivered =
      c9fd.waiters.map (fun w =>
        if (JSVal.err "boom").truthy
        then { cb := w.cb, error := JSVal.err "boom", result := JSVal.null }
        else { cb := w.cb, error := JSVal.null, result := JSVal.null }) ∧
     ({ cb := 2, throws := true } : Waiter).cb
        ∈ (completeFlight c9t "GET:/w9" (JSVal.err "boom") JSVal.null).caught ∧
     mapGet (completeFlight c9t "GET:/w9" (JSVal.err "boom")
        JSVal.null).tracker.flights "GET:/w9" = none) :=
  ⟨⟨by decide, by decide, by decide⟩,
   claim_c9 c9t "GET:/w9" c9fd (JSVal.err "boom") JSVal.null
     [{ cb := 1, throws := false }] [{ cb := 3, throws := false }]
     { cb := 2, throws := true } (by decide) (by decide) (by decide)⟩

/-- C10: a `Ship` sends at most one response: any of `deliver`,
`json`, `text`, `html`, `error` on a ship that has not sent yet
leaves `headersSent = true`; and on a ship that has sent, each of
those methods — and any later `status` or `header` call — returns
with the ship completely unchanged: nothing more is written to the
underlying response and the stored status code is untouched. -/
theorem claim_c10 (s1 s2 : Ship) (d : JSVal) (ct msg ts hn hv : String)
    (code code2 : Int)
    (h1 : s1.headersSent = false) (h2 : s2.headersSent = true) :
    ((Ship.deliver s1 d ct).headersSent = true ∧
     (Ship.json s1 d).headersSent = true ∧
     (Ship.text s1 d).headersSent = true ∧
     (Ship.html s1 d).headersSent = true ∧
     (Ship.error s1 msg code ts).headersSent = true) ∧
    (Ship.deliver s2 d ct = s2 ∧
     Ship.json s2 d = s2 ∧
     Ship.text s2 d = s2 ∧
     Ship.html s2 d = s2 ∧
     Ship.error s2 msg code ts = s2 ∧
     Ship.status s2 code2 = s2 ∧
     Ship.header s2 hn hv = s2) := by
  constructor
  · refine ⟨?_, ?_, ?_, ?_, ?_⟩ <;>
      simp [Ship.deliver, Ship.json, Ship.text, Ship.html, Ship.error, h1]
  · refine ⟨?_, ?_, ?_, ?_, ?_, ?_, ?_⟩ <;>
      simp [Ship.deliver, Ship.json, Ship.text, Ship.html, Ship.error,
        Ship.status, Ship.header, h2]

theorem claim_c10_witness :
    (newShip.headersSent = false ∧
     (Ship.json newShip (JSVal.num 1)).headersSent = true) ∧
    Ship.deliver (Ship.json newShip (JSVal.num 1)) (JSVal.str "x") "text/plain" =
      Ship.json newShip (JSVal.num 1) :=
  ⟨⟨by decide, by decide⟩,
   (claim_c10 newShip (Ship.json newShip (JSVal.num 1)) (JSVal.str "x") "text/plain"
     "m" "t" "n" "v" 500 404 (by decide) (by decide)).2.1⟩
